import Mathlib

/-!
Verification development for the InvokeAI regional-prompts excerpt:
the `regionalPromptsSlice` layer store (reducers, color cycler, undo
grouping policy) and the `addRegionalPromptsToGraph` graph splicer.

Shallow embedding conventions:
* JS numbers used only for coordinates/sizes are embedded as `Int`;
  alpha/opacity values (which take fractional values such as 0.5) as `ℚ`.
* Redux's mutate-in-place reducers become pure state-transition functions.
* The module-level `LayerColors.i` static counter is threaded explicitly
  through the store state.
* The graph splicer's `await`ed image upload is an oracle
  `upload : String → String` from layer id to server-assigned image name;
  the blob mapping is embedded as the list of its keys (blob contents are
  never inspected by the code).
-/

/-- RGBA color (`RgbaColor`): r/g/b are integral channel values; the alpha
channel is rational because the store writes the fractional global opacity
into it. -/
structure Rgba where
  r : Nat
  g : Nat
  b : Nat
  a : ℚ
deriving DecidableEq, Repr

/-- Konva `IRect`. -/
structure IRect where
  x : Int
  y : Int
  width : Int
  height : Int
deriving DecidableEq, Repr

/-- `TextPrompt`: positive/negative prompt strings. -/
structure TextPrompt where
  positive : String
  negative : String
deriving DecidableEq, Repr

/-- A layer's drawable object: `VectorMaskLine` or `VectorMaskRect`.
The line's `tool` is the drawing tool string ("brush" or "eraser"). -/
inductive VObj where
  | line (id : String) (tool : String) (strokeWidth : Int) (points : List Int)
  | rect (id : String) (x : Int) (y : Int) (width : Int) (height : Int)
deriving DecidableEq, Repr

/-- `isLine` type guard from the slice (checks `kind === 'vector_mask_line'`). -/
def isLineB : VObj → Bool
  | .line .. => true
  | .rect .. => false

/-- A `VectorMaskLayer` (the only `Layer` variant).  `kind` is kept as the
tag string so that `isVectorMaskLayer` and the `layerAdded` reducer can
branch on it exactly as the source does.  `imagePrompts` entries are the
source's empty-object placeholders. -/
structure Layer where
  id : String
  kind : String
  x : Int
  y : Int
  bbox : Option IRect
  bboxNeedsUpdate : Bool
  isVisible : Bool
  textPrompt : Option TextPrompt
  imagePrompts : List Unit
  previewColor : Rgba
  autoNegative : String
  needsPixelBbox : Bool
  objects : List VObj
deriving DecidableEq, Repr

/-- `isVectorMaskLayer` type guard. -/
def isVectorMaskLayer (l : Layer) : Bool := l.kind == "vector_mask_layer"

/-- `RegionalPromptsState`. -/
structure RegionalPromptsState where
  version : Nat
  selectedLayerId : Option String
  layers : List Layer
  brushSize : Int
  brushColor : Rgba
  globalMaskLayerOpacity : ℚ
  isEnabled : Bool
deriving DecidableEq, Repr

/-- `initialRegionalPromptsState`. -/
def initialRegionalPromptsState : RegionalPromptsState :=
  { version := 1
    selectedLayerId := none
    brushSize := 100
    brushColor := { r := 255, g := 0, b := 0, a := 1 }
    layers := []
    globalMaskLayerOpacity := 1 / 2
    isEnabled := false }

/-- `LayerColors.COLORS`: the fixed 7-entry preview-color palette. -/
def LayerColors.COLORS : List Rgba :=
  [ { r := 123, g := 159, b := 237, a := 1 }
  , { r := 106, g := 222, b := 106, a := 1 }
  , { r := 250, g := 225, b := 80, a := 1 }
  , { r := 233, g := 137, b := 81, a := 1 }
  , { r := 229, g := 96, b := 96, a := 1 }
  , { r := 226, g := 122, b := 210, a := 1 }
  , { r := 167, g := 116, b := 234, a := 1 } ]

/-- Initial value of the static counter `LayerColors.i` (`COLORS.length - 1`). -/
def LayerColors.initI : Nat := LayerColors.COLORS.length - 1

/-- `LayerColors.next`: takes the current static index and the optional
previous color; if the previous color matches a palette entry ignoring
alpha (`isEqual(c, { ...currentColor, a: 1 })`), the index is reset to that
entry; then the index always advances by one modulo the palette length and
that palette color is returned.  Returns the new index with the color.
The source's `assert(color)` cannot fire since the index is reduced modulo
the (non-zero) palette length; `getD`'s default is therefore never used. -/
def LayerColors.next (i : Nat) (currentColor : Option Rgba) : Nat × Rgba :=
  let i0 : Nat :=
    match currentColor with
    | some c =>
      match LayerColors.COLORS.findIdx? (fun p => p = { c with a := 1 }) with
      | some j => j
      | none => i
    | none => i
  let i1 := (i0 + 1) % LayerColors.COLORS.length
  (i1, LayerColors.COLORS.getD i1 { r := 0, g := 0, b := 0, a := 0 })

/-- Replace the first element satisfying `p` by its image under `f`
(embeds the source's `state.layers.find(...)` followed by in-place
mutation of the found element). -/
def updateFirst (p : α → Bool) (f : α → α) : List α → List α
  | [] => []
  | x :: xs => if p x then f x :: xs else x :: updateFirst p f xs

/-- Modelled from the spec: `moveForward` from `common/util/arrayUtils`
(not part of the excerpted sources) swaps the first element matching the
callback with its immediate successor; no-op when the element is absent or
already last. -/
def moveForward (p : α → Bool) : List α → List α
  | x :: y :: rest => if p x then y :: x :: rest else x :: moveForward p (y :: rest)
  | xs => xs

/-- Modelled from the spec: `moveBackward` from `common/util/arrayUtils`
swaps the first element matching the callback with its immediate
predecessor; no-op when the element is absent or already first. -/
def moveBackward (p : α → Bool) : List α → List α
  | x :: y :: rest =>
    if p x then x :: y :: rest
    else if p y then y :: x :: rest
    else x :: moveBackward p (y :: rest)
  | xs => xs

/-- Modelled from the spec: `moveToFront` from `common/util/arrayUtils`
moves the first element matching the callback to the head of the list;
no-op when absent. -/
def moveToFront (p : α → Bool) (xs : List α) : List α :=
  match xs.find? p with
  | none => xs
  | some x => x :: xs.eraseP p

/-- Modelled from the spec: `moveToBack` from `common/util/arrayUtils`
moves the first element matching the callback to the end of the list;
no-op when absent. -/
def moveToBack (p : α → Bool) (xs : List α) : List α :=
  match xs.find? p with
  | none => xs
  | some x => xs.eraseP p ++ [x]

/-- Append a point to the last line object of an object list (the unique
line with no line after it), leaving everything else untouched.  This is
the effect of `layer.objects.findLast(isLine)` followed by
`lastLine.points.push(...)`; when the list holds no line it is returned
unchanged (and the enclosing reducer guards that case separately). -/
def pushPointToLastLine (dx dy : Int) : List VObj → List VObj
  | [] => []
  | o :: os =>
    if os.any isLineB then o :: pushPointToLastLine dx dy os
    else
      match o with
      | .line i t sw pts => .line i t sw (pts ++ [dx, dy]) :: os
      | _ => o :: os

/-- The store actions of `regionalPromptsSlice`.  `uuid` arguments model the
`prepare`-callback `uuidv4()` payload metadata. -/
inductive RPAction where
  | layerAdded (kind : String) (uuid : String)
  | layerSelected (id : String)
  | layerVisibilityToggled (id : String)
  | layerTranslated (id : String) (x y : Int)
  | layerBboxChanged (id : String) (bbox : Option IRect)
  | layerReset (id : String)
  | layerDeleted (id : String)
  | layerMovedForward (id : String)
  | layerMovedToFront (id : String)
  | layerMovedBackward (id : String)
  | layerMovedToBack (id : String)
  | allLayersDeleted
  | maskLayerPositivePromptChanged (id : String) (prompt : String)
  | maskLayerNegativePromptChanged (id : String) (prompt : String)
  | maskLayerPreviewColorChanged (id : String) (color : Rgba)
  | maskLayerLineAdded (id : String) (p0 p1 p2 p3 : Int) (tool : String) (uuid : String)
  | maskLayerPointsAdded (id : String) (px py : Int)
  | maskLayerRectAdded (id : String) (rect : IRect) (uuid : String)
  | maskLayerAutoNegativeChanged (id : String) (autoNegative : String)
  | brushSizeChanged (n : Int)
  | globalMaskLayerOpacityChanged (q : ℚ)
  | isEnabledChanged (b : Bool)
  | undo
  | redo
deriving DecidableEq, Repr

/-- `action.type` for the slice's actions (slice name `regionalPrompts`
followed by the reducer name); the undo-grouping policy returns this string
for the grouped "continuous" actions. -/
def actionType : RPAction → String
  | .layerAdded .. => "regionalPrompts/layerAdded"
  | .layerSelected .. => "regionalPrompts/layerSelected"
  | .layerVisibilityToggled .. => "regionalPrompts/layerVisibilityToggled"
  | .layerTranslated .. => "regionalPrompts/layerTranslated"
  | .layerBboxChanged .. => "regionalPrompts/layerBboxChanged"
  | .layerReset .. => "regionalPrompts/layerReset"
  | .layerDeleted .. => "regionalPrompts/layerDeleted"
  | .layerMovedForward .. => "regionalPrompts/layerMovedForward"
  | .layerMovedToFront .. => "regionalPrompts/layerMovedToFront"
  | .layerMovedBackward .. => "regionalPrompts/layerMovedBackward"
  | .layerMovedToBack .. => "regionalPrompts/layerMovedToBack"
  | .allLayersDeleted => "regionalPrompts/allLayersDeleted"
  | .maskLayerPositivePromptChanged .. => "regionalPrompts/maskLayerPositivePromptChanged"
  | .maskLayerNegativePromptChanged .. => "regionalPrompts/maskLayerNegativePromptChanged"
  | .maskLayerPreviewColorChanged .. => "regionalPrompts/maskLayerPreviewColorChanged"
  | .maskLayerLineAdded .. => "regionalPrompts/maskLayerLineAdded"
  | .maskLayerPointsAdded .. => "regionalPrompts/maskLayerPointsAdded"
  | .maskLayerRectAdded .. => "regionalPrompts/maskLayerRectAdded"
  | .maskLayerAutoNegativeChanged .. => "regionalPrompts/maskLayerAutoNegativeChanged"
  | .brushSizeChanged .. => "regionalPrompts/brushSizeChanged"
  | .globalMaskLayerOpacityChanged .. => "regionalPrompts/globalMaskLayerOpacityChanged"
  | .isEnabledChanged .. => "regionalPrompts/isEnabledChanged"
  | .undo => "regionalPrompts/undo"
  | .redo => "regionalPrompts/redo"

/-- Full store state: the slice state plus the module-level static counter
`LayerColors.i`, which `layerAdded` reads and writes across dispatches. -/
structure StoreState where
  rp : RegionalPromptsState
  cyclerIdx : Nat
deriving DecidableEq, Repr

/-- Initial full store state. -/
def initialStoreState : StoreState :=
  { rp := initialRegionalPromptsState, cyclerIdx := LayerColors.initI }

/-- `getVectorMaskLayerId`. -/
def getVectorMaskLayerId (layerId : String) : String := "vector_mask_layer" ++ "_" ++ layerId

/-- `getVectorMaskLayerLineId`. -/
def getVectorMaskLayerLineId (layerId lineId : String) : String := layerId ++ ".line_" ++ lineId

/-- `getVectorMaskLayerRectId`. -/
def getVectorMaskLayerRectId (layerId rectId : String) : String := layerId ++ ".rect_" ++ rectId

/-- The state-transition function of `regionalPromptsSlice`: one dispatched
action applied to the full store state. -/
def step (s : StoreState) (a : RPAction) : StoreState :=
  match a with
  | .layerAdded kind uuid =>
    if kind = "vector_mask_layer" then
      let lastColor := (s.rp.layers.getLast?).map (fun l => l.previewColor)
      let r := LayerColors.next s.cyclerIdx lastColor
      let layer : Layer :=
        { id := getVectorMaskLayerId uuid
          kind := kind
          isVisible := true
          bbox := none
          bboxNeedsUpdate := false
          objects := []
          previewColor := r.2
          x := 0
          y := 0
          autoNegative := "off"
          needsPixelBbox := false
          textPrompt := some { positive := "", negative := "" }
          imagePrompts := [] }
      { rp := { s.rp with layers := s.rp.layers ++ [layer], selectedLayerId := some layer.id }
        cyclerIdx := r.1 }
    else s
  | .layerSelected id =>
    match s.rp.layers.find? (fun l => l.id == id) with
    | some l => { s with rp := { s.rp with selectedLayerId := some l.id } }
    | none => s
  | .layerVisibilityToggled id =>
    { s with rp := { s.rp with
        layers := updateFirst (fun l => l.id == id)
          (fun l => { l with isVisible := !l.isVisible }) s.rp.layers } }
  | .layerTranslated id x y =>
    { s with rp := { s.rp with
        layers := updateFirst (fun l => l.id == id)
          (fun l => { l with x := x, y := y }) s.rp.layers } }
  | .layerBboxChanged id bbox =>
    { s with rp := { s.rp with
        layers := updateFirst (fun l => l.id == id)
          (fun l => { l with bbox := bbox, bboxNeedsUpdate := false }) s.rp.layers } }
  | .layerReset id =>
    { s with rp := { s.rp with
        layers := updateFirst (fun l => l.id == id)
          (fun l =>
            { l with
              objects := []
              bbox := none
              isVisible := true
              needsPixelBbox := false
              bboxNeedsUpdate := false }) s.rp.layers } }
  | .layerDeleted id =>
    let layers := s.rp.layers.filter (fun l => !(l.id == id))
    { s with rp := { s.rp with
        layers := layers
        selectedLayerId := (layers.head?).map (fun l => l.id) } }
  | .layerMovedForward id =>
    { s with rp := { s.rp with layers := moveForward (fun l => l.id == id) s.rp.layers } }
  | .layerMovedToFront id =>
    -- Because the layers are stored in reverse rendering order, moving to
    -- the (rendering) front is a move to the back of the sequence.
    { s with rp := { s.rp with layers := moveToBack (fun l => l.id == id) s.rp.layers } }
  | .layerMovedBackward id =>
    { s with rp := { s.rp with layers := moveBackward (fun l => l.id == id) s.rp.layers } }
  | .layerMovedToBack id =>
    { s with rp := { s.rp with layers := moveToFront (fun l => l.id == id) s.rp.layers } }
  | .allLayersDeleted =>
    { s with rp := { s.rp with layers := [], selectedLayerId := none } }
  | .maskLayerPositivePromptChanged id prompt =>
    { s with rp := { s.rp with
        layers := updateFirst (fun l => l.id == id)
          (fun l =>
            match l.textPrompt with
            | some tp => { l with textPrompt := some { tp with positive := prompt } }
            | none => l) s.rp.layers } }
  | .maskLayerNegativePromptChanged id prompt =>
    { s with rp := { s.rp with
        layers := updateFirst (fun l => l.id == id)
          (fun l =>
            match l.textPrompt with
            | some tp => { l with textPrompt := some { tp with negative := prompt } }
            | none => l) s.rp.layers } }
  | .maskLayerPreviewColorChanged id color =>
    { s with rp := { s.rp with
        layers := updateFirst (fun l => l.id == id)
          (fun l => { l with previewColor := color }) s.rp.layers } }
  | .maskLayerLineAdded id p0 p1 p2 p3 tool uuid =>
    { s with rp := { s.rp with
        layers := updateFirst (fun l => l.id == id)
          (fun l =>
            { l with
              objects := l.objects ++
                [.line (getVectorMaskLayerLineId l.id uuid) tool s.rp.brushSize
                  [p0 - l.x, p1 - l.y, p2 - l.x, p3 - l.y]]
              bboxNeedsUpdate := true
              needsPixelBbox := l.needsPixelBbox || tool == "eraser" }) s.rp.layers } }
  | .maskLayerPointsAdded id px py =>
    { s with rp := { s.rp with
        layers := updateFirst (fun l => l.id == id)
          (fun l =>
            if l.objects.any isLineB then
              { l with
                objects := pushPointToLastLine (px - l.x) (py - l.y) l.objects
                bboxNeedsUpdate := true }
            else l) s.rp.layers } }
  | .maskLayerRectAdded id rect uuid =>
    if rect.height = 0 || rect.width = 0 then s
    else
      { s with rp := { s.rp with
          layers := updateFirst (fun l => l.id == id)
            (fun l =>
              { l with
                objects := l.objects ++
                  [.rect (getVectorMaskLayerRectId l.id uuid)
                    (rect.x - l.x) (rect.y - l.y) rect.width rect.height]
                bboxNeedsUpdate := true }) s.rp.layers } }
  | .maskLayerAutoNegativeChanged id an =>
    { s with rp := { s.rp with
        layers := updateFirst (fun l => l.id == id)
          (fun l => { l with autoNegative := an }) s.rp.layers } }
  | .brushSizeChanged n =>
    { s with rp := { s.rp with brushSize := n } }
  | .globalMaskLayerOpacityChanged q =>
    { s with rp := { s.rp with
        globalMaskLayerOpacity := q
        layers := s.rp.layers.map (fun l => { l with previewColor := { l.previewColor with a := q } }) } }
  | .isEnabledChanged b =>
    { s with rp := { s.rp with isEnabled := b } }
  | .undo =>
    { s with rp := { s.rp with
        layers := s.rp.layers.map (fun l => { l with bboxNeedsUpdate := true }) } }
  | .redo =>
    { s with rp := { s.rp with
        layers := s.rp.layers.map (fun l => { l with bboxNeedsUpdate := true }) } }

/-- Run a sequence of dispatched actions from the initial store state. -/
def runActions (acts : List RPAction) : StoreState :=
  acts.foldl step initialStoreState

/-- `LINE_1` stroke group token. -/
def LINE_1 : String := "LINE_1"

/-- `LINE_2` stroke group token. -/
def LINE_2 : String := "LINE_2"

/-- `undoableGroupByMatcher`: the "continuous" actions that group by their
own action type. -/
def undoableGroupByMatcher : RPAction → Bool
  | .layerTranslated .. => true
  | .brushSizeChanged .. => true
  | .globalMaskLayerOpacityChanged .. => true
  | .isEnabledChanged .. => true
  | .maskLayerPositivePromptChanged .. => true
  | .maskLayerNegativePromptChanged .. => true
  | .maskLayerPreviewColorChanged .. => true
  | _ => false

/-- `regionalPromptsUndoableConfig.groupBy`: given the dispatched action and
the history's current group (`history.group`, `none` embeds `null`), compute
the group value for this action. -/
def groupBy (a : RPAction) (histGroup : Option String) : Option String :=
  match a with
  | .maskLayerLineAdded .. =>
    some (if histGroup = some LINE_1 then LINE_2 else LINE_1)
  | .maskLayerPointsAdded .. =>
    if histGroup = some LINE_1 ∨ histGroup = some LINE_2 then histGroup
    else if undoableGroupByMatcher (.maskLayerPointsAdded "" 0 0) then
      some (actionType (.maskLayerPointsAdded "" 0 0))
    else none
  | a =>
    if undoableGroupByMatcher a then some (actionType a) else none

/-- Modelled from the spec: redux-undo's grouping (external to the excerpt)
folds an action into the current history entry exactly when its `groupBy`
value is non-null and equal to the group of the previous entry; otherwise it
starts a new entry carrying the new group value.  One fold step over the
accumulator (history entries as `(group, action count)` pairs, newest first,
together with the current `history.group`). -/
def historyStep (acc : List (Option String × Nat) × Option String) (a : RPAction) :
    List (Option String × Nat) × Option String :=
  let g := groupBy a acc.2
  match acc.1 with
  | [] => ([(g, 1)], g)
  | (gPrev, n) :: rest =>
    if g.isSome ∧ g = acc.2 then ((gPrev, n + 1) :: rest, g)
    else ((g, 1) :: (gPrev, n) :: rest, g)

/-- Modelled from the spec: the history entries (oldest first, each with its
group token and the number of folded actions) produced by a dispatch
sequence starting from an empty history whose group is `null`. -/
def historyGroups (acts : List RPAction) : List (Option String × Nat) :=
  (acts.foldl historyStep ([], none)).1.reverse

/-- `Edge` endpoints of the execution graph. -/
structure EdgeEndpoint where
  node_id : String
  field : String
deriving DecidableEq, Repr

/-- A directed edge of the execution graph. -/
structure GEdge where
  source : EdgeEndpoint
  destination : EdgeEndpoint
deriving DecidableEq, Repr

/-- Execution-graph node descriptors, tagged by invocation type.  Base-graph
nodes whose payload the splicer never inspects are embedded as `other` with
their type string. -/
inductive GNode where
  | collect
  | alphaMaskToTensor (image_name : String)
  | compel (prompt : String)
  | sdxlCompel (prompt : String) (style : String)
  | invertTensorMask
  | other (ty : String)
deriving DecidableEq, Repr

/-- `NonNullableGraph`: node-id → descriptor mapping (embedded as an
association list with unique keys, preserving JS object key order) plus the
edge list. -/
structure Graph where
  nodes : List (String × GNode)
  edges : List GEdge
deriving DecidableEq, Repr

/-- `graph.nodes[id] = node`: overwrite the binding in place when the key
exists, else append it. -/
def setNode (g : Graph) (id : String) (n : GNode) : Graph :=
  if g.nodes.any (fun kv => kv.1 == id) then
    { g with nodes := g.nodes.map (fun kv => if kv.1 == id then (kv.1, n) else kv) }
  else
    { g with nodes := g.nodes ++ [(id, n)] }

/-- Modelled from the spec: the node-id constants imported from
`features/nodes/util/graph/constants` (not part of the excerpted sources).
Only their identity and pairwise distinctness matter to the splicer. -/
def POSITIVE_CONDITIONING : String := "positive_conditioning"

/-- Modelled from the spec: global negative-conditioning node id. -/
def NEGATIVE_CONDITIONING : String := "negative_conditioning"

/-- Modelled from the spec: positive collect node id. -/
def POSITIVE_CONDITIONING_COLLECT : String := "positive_conditioning_collect"

/-- Modelled from the spec: negative collect node id. -/
def NEGATIVE_CONDITIONING_COLLECT : String := "negative_conditioning_collect"

/-- Modelled from the spec: id stem for per-layer mask-to-tensor nodes
(the source appends `_` and the layer id). -/
def PROMPT_REGION_MASK_TO_TENSOR : String := "prompt_region_mask_to_tensor"

/-- Modelled from the spec: id stem for per-layer regional positive
conditioning nodes. -/
def PROMPT_REGION_POSITIVE_COND : String := "prompt_region_positive_cond"

/-- Modelled from the spec: id stem for per-layer regional negative
conditioning nodes. -/
def PROMPT_REGION_NEGATIVE_COND : String := "prompt_region_negative_cond"

/-- Modelled from the spec: id stem for per-layer inverted-mask positive
conditioning nodes. -/
def PROMPT_REGION_POSITIVE_COND_INVERTED : String := "prompt_region_positive_cond_inverted"

/-- Modelled from the spec: id stem for per-layer tensor-mask inversion
nodes. -/
def PROMPT_REGION_INVERT_TENSOR_MASK : String := "prompt_region_invert_tensor_mask"

/-- The slice of `RootState` the splicer reads:
`state.regionalPrompts.present.isEnabled`,
`state.regionalPrompts.present.layers` and `state.generation.model?.base`. -/
structure SplicerInput where
  isEnabled : Bool
  layers : List Layer
  modelBase : Option String
deriving Repr

/-- Result of one splicing pass: the (possibly partially) mutated graph, the
layer ids whose mask blobs were uploaded (in upload order), and the message
of the failed assertion when one fired (`none` = the pass completed). -/
structure SplicerResult where
  graph : Graph
  uploaded : List String
  error : Option String
deriving DecidableEq, Repr

/-- The layer filter at the top of `addRegionalPromptsToGraph`: vector-mask
kind, visible, and carrying a nonempty positive or negative text prompt or
at least one image prompt. -/
def filteredLayers (layers : List Layer) : List Layer :=
  ((layers.filter isVectorMaskLayer).filter (fun l => l.isVisible)).filter
    (fun l =>
      (match l.textPrompt with
       | some tp => !(tp.positive == "") || !(tp.negative == "")
       | none => false)
      || decide (l.imagePrompts.length > 0))

/-- The layer's positive prompt when present and truthy (nonempty). -/
def posPrompt? (l : Layer) : Option String :=
  match l.textPrompt with
  | some tp => if tp.positive = "" then none else some tp.positive
  | none => none

/-- The layer's negative prompt when present and truthy (nonempty). -/
def negPrompt? (l : Layer) : Option String :=
  match l.textPrompt with
  | some tp => if tp.negative = "" then none else some tp.negative
  | none => none

/-- The edges the copy loops add: for every edge of the snapshot whose
destination is the given global conditioning node on a non-`prompt` field,
an edge with the same source into the regional node on the same field.
The source iterates `graph.edges` while appending to it, but every appended
edge targets the regional node, whose id (a `prompt_region_*` stem plus the
layer id) never equals the global conditioning node id, so the live loop
never revisits an appended edge and is equivalent to this snapshot form. -/
def copiedEdges (edges : List GEdge) (globalId regionalId : String) : List GEdge :=
  edges.filterMap (fun e =>
    if e.destination.node_id = globalId ∧ e.destination.field ≠ "prompt" then
      some { source := e.source, destination := { node_id := regionalId, field := e.destination.field } }
    else none)

/-- The per-layer body of the splicer's main loop, after the blob assertion
has passed: upload the mask (the oracle yields the server-assigned image
name), insert the mask-to-tensor node, then the positive, negative, and
auto-negative-invert conditioning blocks. -/
def addLayerToGraph (isSDXL : Bool) (upload : String → String) (g : Graph) (layer : Layer) : Graph :=
  let image_name := upload layer.id
  let maskId := PROMPT_REGION_MASK_TO_TENSOR ++ "_" ++ layer.id
  let g := setNode g maskId (.alphaMaskToTensor image_name)
  let g :=
    match posPrompt? layer with
    | some p =>
      let rcId := PROMPT_REGION_POSITIVE_COND ++ "_" ++ layer.id
      let g := setNode g rcId (if isSDXL then .sdxlCompel p p else .compel p)
      let g := { g with edges := g.edges ++
        ([ { source := { node_id := maskId, field := "mask" }
             destination := { node_id := rcId, field := "mask" } }
         , { source := { node_id := rcId, field := "conditioning" }
             destination := { node_id := POSITIVE_CONDITIONING_COLLECT, field := "item" } } ] : List GEdge) }
      { g with edges := g.edges ++ copiedEdges g.edges POSITIVE_CONDITIONING rcId }
    | none => g
  let g :=
    match negPrompt? layer with
    | some p =>
      let rcId := PROMPT_REGION_NEGATIVE_COND ++ "_" ++ layer.id
      let g := setNode g rcId (if isSDXL then .sdxlCompel p p else .compel p)
      let g := { g with edges := g.edges ++
        ([ { source := { node_id := maskId, field := "mask" }
             destination := { node_id := rcId, field := "mask" } }
         , { source := { node_id := rcId, field := "conditioning" }
             destination := { node_id := NEGATIVE_CONDITIONING_COLLECT, field := "item" } } ] : List GEdge) }
      { g with edges := g.edges ++ copiedEdges g.edges NEGATIVE_CONDITIONING rcId }
    | none => g
  if layer.autoNegative = "invert" ∧ (posPrompt? layer).isSome then
    match posPrompt? layer with
    | some p =>
      let invertId := PROMPT_REGION_INVERT_TENSOR_MASK ++ "_" ++ layer.id
      let g := setNode g invertId .invertTensorMask
      let g := { g with edges := g.edges ++
        ([ { source := { node_id := maskId, field := "mask" }
             destination := { node_id := invertId, field := "mask" } } ] : List GEdge) }
      let invCondId := PROMPT_REGION_POSITIVE_COND_INVERTED ++ "_" ++ layer.id
      let g := setNode g invCondId (if isSDXL then .sdxlCompel p p else .compel p)
      let g := { g with edges := g.edges ++
        ([ { source := { node_id := invertId, field := "mask" }
             destination := { node_id := invCondId, field := "mask" } }
         , { source := { node_id := invCondId, field := "conditioning" }
             destination := { node_id := NEGATIVE_CONDITIONING_COLLECT, field := "item" } } ] : List GEdge) }
      { g with edges := g.edges ++ copiedEdges g.edges POSITIVE_CONDITIONING invCondId }
    | none => g
  else g

/-- The splicer's main loop over the filtered layers: each iteration first
asserts the layer's blob is present (failing there leaves the graph as
mutated so far, with no node of the failing layer inserted), then uploads
and splices the layer's nodes. -/
def processLayers (isSDXL : Bool) (blobs : List String) (upload : String → String) :
    Graph → List Layer → Graph × List String × Option String
  | g, [] => (g, [], none)
  | g, l :: ls =>
    if l.id ∈ blobs then
      let g1 := addLayerToGraph isSDXL upload g l
      let r := processLayers isSDXL blobs upload g1 ls
      (r.1, l.id :: r.2.1, r.2.2)
    else
      (g, [], some ("Blob for layer " ++ l.id ++ " not found"))

/-- The setup phase run once the blob-count assertion has passed: insert the
two collect nodes, reroute the denoiser's original conditioning inputs into
them, then (strictly afterwards, to avoid capturing them in the reroute)
connect the collectors' outputs to the denoiser. -/
def spliceSetup (graph : Graph) (denoiseNodeId : String) : Graph :=
  let g := setNode graph POSITIVE_CONDITIONING_COLLECT .collect
  let g := setNode g NEGATIVE_CONDITIONING_COLLECT .collect
  let g := { g with edges := g.edges.map (fun (e : GEdge) =>
    if e.destination.node_id = denoiseNodeId ∧ e.destination.field = "positive_conditioning" then
      ({ source := e.source
         destination := { node_id := POSITIVE_CONDITIONING_COLLECT, field := "item" } } : GEdge)
    else if e.destination.node_id = denoiseNodeId ∧ e.destination.field = "negative_conditioning" then
      ({ source := e.source
         destination := { node_id := NEGATIVE_CONDITIONING_COLLECT, field := "item" } } : GEdge)
    else e) }
  { g with edges := g.edges ++
    ([ { source := { node_id := POSITIVE_CONDITIONING_COLLECT, field := "collection" }
         destination := { node_id := denoiseNodeId, field := "positive_conditioning" } }
     , { source := { node_id := NEGATIVE_CONDITIONING_COLLECT, field := "collection" }
         destination := { node_id := denoiseNodeId, field := "negative_conditioning" } } ] : List GEdge) }

/-- `addRegionalPromptsToGraph`: one splicing pass.  `blobs` is the key set
of the mapping `getRegionalPromptLayerBlobs` returned (its `size` is the
number of keys); `upload` is the image-upload oracle. -/
def addRegionalPromptsToGraph (st : SplicerInput) (graph : Graph) (denoiseNodeId : String)
    (blobs : List String) (upload : String → String) : SplicerResult :=
  if !st.isEnabled then
    { graph := graph, uploaded := [], error := none }
  else
    let isSDXL := st.modelBase == some "sdxl"
    let layers := filteredLayers st.layers
    let layerIds := layers.map (fun l => l.id)
    if blobs.length ≠ layerIds.length then
      { graph := graph, uploaded := [], error := some "Mismatch between layer IDs and blobs" }
    else
      let g := spliceSetup graph denoiseNodeId
      let r := processLayers isSDXL blobs upload g layers
      { graph := r.1, uploaded := r.2.1, error := r.2.2 }

/-- A default vector-mask layer with the given id and no drawn objects,
matching the field defaults `layerAdded` assigns. -/
def plainLayer (id : String) : Layer :=
  { id := id
    kind := "vector_mask_layer"
    x := 0
    y := 0
    bbox := none
    bboxNeedsUpdate := false
    isVisible := true
    textPrompt := some { positive := "", negative := "" }
    imagePrompts := []
    previewColor := { r := 255, g := 0, b := 0, a := 1 }
    autoNegative := "off"
    needsPixelBbox := false
    objects := [] }

/-- The splicer test scenario's single layer: enabled/visible, only a
positive prompt, auto-negative off. -/
def demoLayer : Layer :=
  { plainLayer "layer1" with textPrompt := some { positive := "cat", negative := "" } }

/-- The splicer test scenario's base graph: a positive-conditioning node P
wired to the denoiser's positive input and a negative-conditioning node Ng
wired to its negative input. -/
def baseGraph : Graph :=
  { nodes :=
      [ (POSITIVE_CONDITIONING, .other "compel")
      , (NEGATIVE_CONDITIONING, .other "compel")
      , ("denoise", .other "denoise_latents") ]
    edges :=
      [ { source := { node_id := POSITIVE_CONDITIONING, field := "conditioning" }
          destination := { node_id := "denoise", field := "positive_conditioning" } }
      , { source := { node_id := NEGATIVE_CONDITIONING, field := "conditioning" }
          destination := { node_id := "denoise", field := "negative_conditioning" } } ] }

/-- Concrete upload oracle for the scenarios. -/
def demoUpload : String → String := fun id => id ++ "_uploaded"

/-- Splicing the scenario base graph with the one off-policy layer. -/
def demoResultOff : SplicerResult :=
  addRegionalPromptsToGraph
    { isEnabled := true, layers := [demoLayer], modelBase := none }
    baseGraph "denoise" ["layer1"] demoUpload

/-- Splicing the scenario base graph with the layer's auto-negative policy
switched to "invert". -/
def demoResultInvert : SplicerResult :=
  addRegionalPromptsToGraph
    { isEnabled := true, layers := [{ demoLayer with autoNegative := "invert" }], modelBase := none }
    baseGraph "denoise" ["layer1"] demoUpload

/-- The sources of the edges feeding a given destination endpoint. -/
def sourcesInto (g : Graph) (dst : EdgeEndpoint) : List EdgeEndpoint :=
  (g.edges.filter (fun e => e.destination == dst)).map (fun e => e.source)

/-- Claim C1 counterexample: in the one-layer, positive-prompt-only,
auto-negative-off scenario, the positive collect node does NOT have the new
regional conditioning node as its only incoming item edge, and the negative
collect node does NOT have zero incoming item edges: the original P→denoiser
and Ng→denoiser edges were rerouted into the collect nodes' item inputs. -/
theorem spliceOffScenario_cx :
    ¬ ((sourcesInto demoResultOff.graph
          { node_id := POSITIVE_CONDITIONING_COLLECT, field := "item" }
        = [{ node_id := PROMPT_REGION_POSITIVE_COND ++ "_" ++ "layer1", field := "conditioning" }])
      ∧ (sourcesInto demoResultOff.graph
          { node_id := NEGATIVE_CONDITIONING_COLLECT, field := "item" }).length = 0) := by
  decide

/-- Claim C1 (amended): in that scenario the denoiser's positive input comes
from the positive collect node, which has exactly two incoming item edges —
P's original edge rerouted to the collect node, then the new regional
conditioning node (which carries the layer's positive prompt) — and the
denoiser's negative input comes from the negative collect node, whose only
incoming item edge is Ng's rerouted original edge. -/
theorem spliceOffScenario_amended :
    demoResultOff.error = none
    ∧ sourcesInto demoResultOff.graph { node_id := "denoise", field := "positive_conditioning" }
      = [{ node_id := POSITIVE_CONDITIONING_COLLECT, field := "collection" }]
    ∧ sourcesInto demoResultOff.graph { node_id := POSITIVE_CONDITIONING_COLLECT, field := "item" }
      = [ { node_id := POSITIVE_CONDITIONING, field := "conditioning" }
        , { node_id := PROMPT_REGION_POSITIVE_COND ++ "_" ++ "layer1", field := "conditioning" } ]
    ∧ sourcesInto demoResultOff.graph { node_id := "denoise", field := "negative_conditioning" }
      = [{ node_id := NEGATIVE_CONDITIONING_COLLECT, field := "collection" }]
    ∧ sourcesInto demoResultOff.graph { node_id := NEGATIVE_CONDITIONING_COLLECT, field := "item" }
      = [{ node_id := NEGATIVE_CONDITIONING, field := "conditioning" }]
    ∧ demoResultOff.graph.nodes.find?
        (fun kv => kv.1 == PROMPT_REGION_POSITIVE_COND ++ "_" ++ "layer1")
      = some (PROMPT_REGION_POSITIVE_COND ++ "_" ++ "layer1", .compel "cat") := by
  decide

/-- Claim C2 counterexample: with auto-negative "invert", the negative
collect node does NOT end up with exactly one incoming edge — it has two:
Ng's rerouted original edge and the inverted-mask conditioning node. -/
theorem spliceInvertScenario_cx :
    ¬ (sourcesInto demoResultInvert.graph
        { node_id := NEGATIVE_CONDITIONING_COLLECT, field := "item" }).length = 1 := by
  decide

/-- Claim C2 (amended): with auto-negative "invert", the negative collect
node ends up with exactly two incoming item edges — Ng's original edge
rerouted to it, and the newly created inverted-mask conditioning node, which
carries the layer's positive prompt text. -/
theorem spliceInvertScenario_amended :
    demoResultInvert.error = none
    ∧ sourcesInto demoResultInvert.graph { node_id := NEGATIVE_CONDITIONING_COLLECT, field := "item" }
      = [ { node_id := NEGATIVE_CONDITIONING, field := "conditioning" }
        , { node_id := PROMPT_REGION_POSITIVE_COND_INVERTED ++ "_" ++ "layer1", field := "conditioning" } ]
    ∧ demoResultInvert.graph.nodes.find?
        (fun kv => kv.1 == PROMPT_REGION_POSITIVE_COND_INVERTED ++ "_" ++ "layer1")
      = some (PROMPT_REGION_POSITIVE_COND_INVERTED ++ "_" ++ "layer1", .compel "cat") := by
  decide

/-- Claim C7: the dispatch sequence add-line, append-point, append-point,
add-line, append-point (from an empty history with null group) produces
exactly two history entries, the first group (token `LINE_1`) covering the
first three actions and the second (token `LINE_2`) the last two; in
general an add-line action flips between the two stroke tokens, and an
append-point action keeps the history's current group whenever that group
is one of the two stroke tokens. -/
theorem undoGrouping_strokes (layerId : String) (p0 p1 p2 p3 px py : Int) (tool uuid : String) :
    historyGroups
      [ .maskLayerLineAdded "L" 0 0 1 1 "brush" "u1"
      , .maskLayerPointsAdded "L" 2 2
      , .maskLayerPointsAdded "L" 3 3
      , .maskLayerLineAdded "L" 4 4 5 5 "brush" "u2"
      , .maskLayerPointsAdded "L" 6 6 ]
      = [(some LINE_1, 3), (some LINE_2, 2)]
    ∧ (∀ g : Option String,
        groupBy (.maskLayerLineAdded layerId p0 p1 p2 p3 tool uuid) g
          = some (if g = some LINE_1 then LINE_2 else LINE_1))
    ∧ (∀ g : Option String, g = some LINE_1 ∨ g = some LINE_2 →
        groupBy (.maskLayerPointsAdded layerId px py) g = g) := by
  refine ⟨by decide, fun g => rfl, fun g h => ?_⟩
  have : (g = some LINE_1 ∨ g = some LINE_2) = True := eq_true h
  simp only [groupBy, this, if_true]

/-- Witness for `undoGrouping_strokes`: concrete instances of its grouped
clauses, including an append-point under each stroke token. -/
theorem undoGrouping_strokes_witness :
    groupBy (.maskLayerLineAdded "L" 0 0 1 1 "brush" "u") (some LINE_1) = some LINE_2
    ∧ groupBy (.maskLayerPointsAdded "L" 2 2) (some LINE_1) = some LINE_1
    ∧ groupBy (.maskLayerPointsAdded "L" 2 2) (some LINE_2) = some LINE_2 := by
  refine ⟨?_, ?_, ?_⟩
  · have h := (undoGrouping_strokes "L" 0 0 1 1 2 2 "brush" "u").2.1 (some LINE_1)
    simpa using h
  · exact (undoGrouping_strokes "L" 0 0 1 1 2 2 "brush" "u").2.2 (some LINE_1) (Or.inl rfl)
  · exact (undoGrouping_strokes "L" 0 0 1 1 2 2 "brush" "u").2.2 (some LINE_2) (Or.inr rfl)

/-- Iterated no-argument calls to `LayerColors.next`: the final index and
the colors returned by `n` successive calls starting from index `i`. -/
def LayerColors.run (i : Nat) : Nat → Nat × List Rgba
  | 0 => (i, [])
  | n + 1 =>
    let r := LayerColors.next i none
    let rest := LayerColors.run r.1 n
    (rest.1, r.2 :: rest.2)

/-- Claim C8: from any palette index, seven no-argument `next()` calls
return every palette color exactly once and leave the index where it
started, so the fourteen-call sequence is the seven-call sequence twice;
reseeding with the palette's third color — alpha-exact or with a different
alpha — yields the fourth color, and reseeding with the last palette color
wraps to the first. -/
theorem layerColors_cycle (i : Nat) (h : i < 7) :
    (∀ c ∈ LayerColors.COLORS, ((LayerColors.run i 7).2.count c = 1))
    ∧ (LayerColors.run i 7).1 = i
    ∧ (LayerColors.run i 14).2 = (LayerColors.run i 7).2 ++ (LayerColors.run i 7).2
    ∧ (LayerColors.next i (some { r := 250, g := 225, b := 80, a := 1 })).2
        = { r := 233, g := 137, b := 81, a := 1 }
    ∧ (LayerColors.next i (some { r := 250, g := 225, b := 80, a := 0 })).2
        = { r := 233, g := 137, b := 81, a := 1 }
    ∧ (LayerColors.next i (some { r := 167, g := 116, b := 234, a := 1 })).2
        = { r := 123, g := 159, b := 237, a := 1 } := by
  interval_cases i <;> exact (by decide)

/-- Witness for `layerColors_cycle` at the source's initial index 6. -/
theorem layerColors_cycle_witness :
    6 < 7
    ∧ ((∀ c ∈ LayerColors.COLORS, ((LayerColors.run 6 7).2.count c = 1))
      ∧ (LayerColors.run 6 7).1 = 6
      ∧ (LayerColors.run 6 14).2 = (LayerColors.run 6 7).2 ++ (LayerColors.run 6 7).2
      ∧ (LayerColors.next 6 (some { r := 250, g := 225, b := 80, a := 1 })).2
          = { r := 233, g := 137, b := 81, a := 1 }
      ∧ (LayerColors.next 6 (some { r := 250, g := 225, b := 80, a := 0 })).2
          = { r := 233, g := 137, b := 81, a := 1 }
      ∧ (LayerColors.next 6 (some { r := 167, g := 116, b := 234, a := 1 })).2
          = { r := 123, g := 159, b := 237, a := 1 }) :=
  ⟨by decide, layerColors_cycle 6 (by decide)⟩

/-- A concrete store state holding two layers with ids "a" and "b", with
layer "b" selected. -/
def twoLayerState : StoreState :=
  { rp := { initialRegionalPromptsState with
      layers := [plainLayer "a", plainLayer "b"]
      selectedLayerId := some "b" }
    cyclerIdx := LayerColors.initI }

/-- Claim C9 counterexample: deleting the currently selected layer "b" does
NOT clear the selection — it selects the first remaining layer "a". -/
theorem layerDeleted_selection_cx :
    ¬ ((step twoLayerState (.layerDeleted "b")).rp.selectedLayerId = none)
    ∧ (step twoLayerState (.layerDeleted "b")).rp.selectedLayerId = some "a" := by
  decide

/-- Claim C9 (amended): dispatching delete-layer (with any id, in particular
the selected layer's) sets the selection to the id of the first layer
remaining after the deletion, or to null when no layer remains. -/
theorem layerDeleted_selection (s : StoreState) (id : String) :
    (step s (.layerDeleted id)).rp.selectedLayerId
      = ((s.rp.layers.filter (fun l => !(l.id == id))).head?).map (fun l => l.id) := rfl

/-- Claim C10: when the regional-prompts feature is disabled the splicer
returns immediately: the graph is exactly the input graph, no upload is
initiated and no error is raised. -/
theorem splicer_disabled_noop (st : SplicerInput) (graph : Graph) (dn : String)
    (blobs : List String) (upload : String → String) (h : st.isEnabled = false) :
    addRegionalPromptsToGraph st graph dn blobs upload
      = { graph := graph, uploaded := [], error := none } := by
  simp [addRegionalPromptsToGraph, h]

/-- Witness for `splicer_disabled_noop` on the scenario graph. -/
theorem splicer_disabled_noop_witness :
    (SplicerInput.mk false [demoLayer] none).isEnabled = false
    ∧ addRegionalPromptsToGraph (SplicerInput.mk false [demoLayer] none) baseGraph "denoise"
        ["layer1"] demoUpload
      = { graph := baseGraph, uploaded := [], error := none } :=
  ⟨rfl, splicer_disabled_noop _ _ _ _ _ rfl⟩

/-- If `f` fixes whatever element `find?` would return, replacing the first
match is the identity. -/
theorem updateFirst_eq_self (p : α → Bool) (f : α → α) :
    ∀ xs : List α, (∀ x, xs.find? p = some x → f x = x) → updateFirst p f xs = xs
  | [], _ => rfl
  | x :: xs, h => by
    simp only [updateFirst]
    split
    next hx =>
      rw [h x (by simp [List.find?_cons_of_pos, hx])]
    next hx =>
      rw [updateFirst_eq_self p f xs
        (fun y hy => h y (by rw [List.find?_cons_of_neg _ hx]; exact hy))]

/-- A concrete store state whose single layer "L" has a line followed by a
rectangle, the rectangle being the last object. -/
def lineThenRectState : StoreState :=
  { rp := { initialRegionalPromptsState with
      layers := [{ plainLayer "L" with
        objects := [.line "L.line_u" "brush" 100 [0, 0, 1, 1], .rect "L.rect_u" 0 0 5 5] }] }
    cyclerIdx := LayerColors.initI }

/-- Claim C5 counterexample: the layer whose LAST object is a rectangle is
NOT left unchanged by an append-point action — the point is appended to the
earlier line (`findLast(isLine)` skips the trailing rectangle) and the bbox
is marked dirty. -/
theorem pointsAdded_rectLast_cx :
    step lineThenRectState (.maskLayerPointsAdded "L" 7 8) ≠ lineThenRectState
    ∧ (step lineThenRectState (.maskLayerPointsAdded "L" 7 8)).rp.layers
      = [{ plainLayer "L" with
            objects := [.line "L.line_u" "brush" 100 [0, 0, 1, 1, 7, 8], .rect "L.rect_u" 0 0 5 5]
            bboxNeedsUpdate := true }] := by
  refine ⟨?_, by decide⟩
  decide

/-- Claim C5 (amended): an append-point action leaves the state unchanged
exactly when the targeted layer has no line object at all (a trailing
rectangle does not shield an earlier line); stated here for any state whose
looked-up target layer contains no line. -/
theorem pointsAdded_noLine_noop (s : StoreState) (layerId : String) (px py : Int)
    (h : ∀ l, s.rp.layers.find? (fun l => l.id == layerId) = some l →
      l.objects.any isLineB = false) :
    step s (.maskLayerPointsAdded layerId px py) = s := by
  have hl :
      updateFirst (fun l => l.id == layerId)
        (fun l =>
          if l.objects.any isLineB then
            { l with
              objects := pushPointToLastLine (px - l.x) (py - l.y) l.objects
              bboxNeedsUpdate := true }
          else l) s.rp.layers = s.rp.layers :=
    updateFirst_eq_self _ _ _ (fun x hx => by simp [h x hx])
  show ({ s with rp := { s.rp with layers := updateFirst _ _ s.rp.layers } } : StoreState) = s
  rw [hl]

/-- A concrete store state whose single layer "R" holds only a rectangle. -/
def rectOnlyState : StoreState :=
  { rp := { initialRegionalPromptsState with
      layers := [{ plainLayer "R" with objects := [.rect "R.rect_u" 0 0 5 5] }] }
    cyclerIdx := LayerColors.initI }

/-- Witness for `pointsAdded_noLine_noop` on a rectangle-only layer. -/
theorem pointsAdded_noLine_noop_witness :
    step rectOnlyState (.maskLayerPointsAdded "R" 7 8) = rectOnlyState :=
  pointsAdded_noLine_noop rectOnlyState "R" 7 8
    (fun l hl => by injection hl with h; rw [← h]; decide)

/-- When a list contains exactly one match, its `eraseP` contains none. -/
theorem eraseP_no_match (p : α → Bool) :
    ∀ xs : List α, xs.countP p = 1 → ∀ y ∈ xs.eraseP p, p y = false
  | [], h => by simp [List.countP_nil] at h
  | x :: xs, h => by
    rcases hx : p x with hfalse | htrue
    · rw [List.eraseP_cons_of_neg (by simp [hx])]
      intro y hy
      rcases List.mem_cons.mp hy with rfl | hy'
      · exact hx
      · refine eraseP_no_match p xs ?_ y hy'
        rw [List.countP_cons, hx] at h
        simpa using h
    · rw [List.eraseP_cons_of_pos hx]
      intro y hy
      rw [List.countP_cons, hx] at h
      simp only [if_true] at h
      have h0 : xs.countP p = 0 := by omega
      have := List.countP_eq_zero.mp h0 y hy
      simpa using this

/-- `find?` skips a match-free first segment. -/
theorem find?_append_of_forall_neg (p : α → Bool) :
    ∀ l₁ l₂ : List α, (∀ y ∈ l₁, p y = false) → (l₁ ++ l₂).find? p = l₂.find? p
  | [], l₂, _ => rfl
  | x :: l₁, l₂, h => by
    rw [List.cons_append, List.find?_cons_of_neg _ (by simp [h x (List.mem_cons_self x l₁)])]
    exact find?_append_of_forall_neg p l₁ l₂ (fun y hy => h y (List.mem_cons_of_mem x hy))

/-- `eraseP` skips a match-free first segment. -/
theorem eraseP_append_of_forall_neg (p : α → Bool) :
    ∀ l₁ l₂ : List α, (∀ y ∈ l₁, p y = false) → (l₁ ++ l₂).eraseP p = l₁ ++ l₂.eraseP p
  | [], l₂, _ => rfl
  | x :: l₁, l₂, h => by
    rw [List.cons_append, List.eraseP_cons_of_neg (by simp [h x (List.mem_cons_self x l₁)]),
      eraseP_append_of_forall_neg p l₁ l₂ (fun y hy => h y (List.mem_cons_of_mem x hy)),
      List.cons_append]

/-- A list with exactly one match has a `find?` result. -/
theorem find?_isSome_of_countP_one (p : α → Bool) (xs : List α) (h : xs.countP p = 1) :
    ∃ x, xs.find? p = some x := by
  have hpos : 0 < xs.countP p := by omega
  obtain ⟨a, ha, hpa⟩ := List.countP_pos_iff.mp hpos
  exact Option.isSome_iff_exists.mp (List.find?_isSome.mpr ⟨a, ha, hpa⟩)

/-- Moving the (unique) match to the back and then to the front is the same
as moving it to the front directly. -/
theorem moveToFront_moveToBack (p : α → Bool) (xs : List α) (h : xs.countP p = 1) :
    moveToFront p (moveToBack p xs) = moveToFront p xs := by
  obtain ⟨x, hfind⟩ := find?_isSome_of_countP_one p xs h
  have hnm := eraseP_no_match p xs h
  have hpx : p x = true := List.find?_some hfind
  simp only [moveToBack, moveToFront, hfind, find?_append_of_forall_neg p _ _ hnm,
    List.find?_cons_of_pos _ hpx, eraseP_append_of_forall_neg p _ _ hnm,
    List.eraseP_cons_of_pos hpx, List.append_nil]

/-- Moving the first match to the front and then to the back is the same as
moving it to the back directly. -/
theorem moveToBack_moveToFront (p : α → Bool) (xs : List α) (x : α)
    (hfind : xs.find? p = some x) :
    moveToBack p (moveToFront p xs) = moveToBack p xs := by
  have hpx : p x = true := List.find?_some hfind
  simp only [moveToFront, moveToBack, hfind, List.find?_cons_of_pos _ hpx,
    List.eraseP_cons_of_pos hpx]

/-- A concrete store state with three layers "a", "b", "c". -/
def threeLayerState : StoreState :=
  { rp := { initialRegionalPromptsState with
      layers := [plainLayer "a", plainLayer "b", plainLayer "c"] }
    cyclerIdx := LayerColors.initI }

/-- Claim C4 counterexample: moving the middle layer "b" to-front then
to-back (or to-back then to-front) does NOT restore the original order of
the three layers. -/
theorem moveFrontBack_cx :
    (step (step threeLayerState (.layerMovedToFront "b")) (.layerMovedToBack "b")).rp.layers
      ≠ threeLayerState.rp.layers
    ∧ (step (step threeLayerState (.layerMovedToBack "b")) (.layerMovedToFront "b")).rp.layers
      ≠ threeLayerState.rp.layers := by
  decide

/-- Claim C4 (amended): for a layer id held by exactly one layer, applying
move-to-front followed by move-to-back yields the state move-to-back alone
would yield (and symmetrically with the operations swapped): the second move
wins and the others keep their relative order; the original order is
restored only when those states already coincide with it. -/
theorem moveFrontBack_collapse (s : StoreState) (id : String)
    (h : s.rp.layers.countP (fun l => l.id == id) = 1) :
    step (step s (.layerMovedToFront id)) (.layerMovedToBack id)
      = step s (.layerMovedToBack id)
    ∧ step (step s (.layerMovedToBack id)) (.layerMovedToFront id)
      = step s (.layerMovedToFront id) := by
  obtain ⟨x, hfind⟩ := find?_isSome_of_countP_one (fun l => l.id == id) s.rp.layers h
  constructor
  · simp only [step]
    rw [moveToFront_moveToBack _ _ h]
  · simp only [step]
    rw [moveToBack_moveToFront _ _ _ hfind]

/-- Witness for `moveFrontBack_collapse` on the three-layer state. -/
theorem moveFrontBack_collapse_witness :
    threeLayerState.rp.layers.countP (fun l => l.id == "b") = 1
    ∧ (step (step threeLayerState (.layerMovedToFront "b")) (.layerMovedToBack "b")
        = step threeLayerState (.layerMovedToBack "b")
      ∧ step (step threeLayerState (.layerMovedToBack "b")) (.layerMovedToFront "b")
        = step threeLayerState (.layerMovedToFront "b")) :=
  ⟨by decide, moveFrontBack_collapse threeLayerState "b" (by decide)⟩

/-- `updateFirst` with an id-preserving update leaves the id test of `any`
unchanged. -/
theorem any_id_updateFirst (q : String) (p : Layer → Bool) (f : Layer → Layer)
    (hf : ∀ l, (f l).id = l.id) :
    ∀ xs : List Layer,
      (updateFirst p f xs).any (fun l => l.id == q) = xs.any (fun l => l.id == q)
  | [] => rfl
  | x :: xs => by
    simp only [updateFirst]
    split
    · simp [hf x]
    · simp [any_id_updateFirst q p f hf xs]

/-- `map` with an id-preserving function leaves the id test of `any`
unchanged. -/
theorem any_id_map (q : String) (f : Layer → Layer) (hf : ∀ l, (f l).id = l.id) :
    ∀ xs : List Layer,
      (xs.map f).any (fun l => l.id == q) = xs.any (fun l => l.id == q)
  | [] => rfl
  | x :: xs => by simp [any_id_map q f hf xs, hf x]

/-- Consing `find?`'s result onto the `eraseP` residue permutes the list. -/
theorem perm_cons_eraseP (p : α → Bool) :
    ∀ (xs : List α) (x : α), xs.find? p = some x → (x :: xs.eraseP p).Perm xs
  | [], x, h => by simp at h
  | y :: ys, x, h => by
    rcases hy : p y with hf | ht
    · rw [List.find?_cons_of_neg _ (by simp [hy])] at h
      rw [List.eraseP_cons_of_neg (by simp [hy])]
      exact (List.Perm.swap y x (ys.eraseP p)).trans ((perm_cons_eraseP p ys x h).cons y)
    · rw [List.find?_cons_of_pos _ hy] at h
      injection h with h
      rw [List.eraseP_cons_of_pos hy, h]

/-- `moveToFront` permutes the list. -/
theorem perm_moveToFront (p : α → Bool) (xs : List α) : (moveToFront p xs).Perm xs := by
  rcases hfind : xs.find? p with _ | x
  · simp [moveToFront, hfind]
  · simp only [moveToFront, hfind]
    exact perm_cons_eraseP p xs x hfind

/-- `moveToBack` permutes the list. -/
theorem perm_moveToBack (p : α → Bool) (xs : List α) : (moveToBack p xs).Perm xs := by
  rcases hfind : xs.find? p with _ | x
  · simp [moveToBack, hfind]
  · simp only [moveToBack, hfind]
    exact (List.perm_append_singleton x (xs.eraseP p)).trans (perm_cons_eraseP p xs x hfind)

/-- `moveForward` permutes the list. -/
theorem perm_moveForward (p : α → Bool) : ∀ xs : List α, (moveForward p xs).Perm xs
  | [] => .refl _
  | [_] => .refl _
  | x :: y :: rest => by
    simp only [moveForward]
    split
    · exact List.Perm.swap x y rest
    · exact (perm_moveForward p (y :: rest)).cons x

/-- `moveBackward` permutes the list. -/
theorem perm_moveBackward (p : α → Bool) : ∀ xs : List α, (moveBackward p xs).Perm xs
  | [] => .refl _
  | [_] => .refl _
  | x :: y :: rest => by
    simp only [moveBackward]
    split
    · exact .refl _
    · split
      · exact List.Perm.swap x y rest
      · exact (perm_moveBackward p (y :: rest)).cons x

/-- `any` is invariant under permutation. -/
theorem any_of_perm {xs ys : List α} (h : xs.Perm ys) (p : α → Bool) :
    xs.any p = ys.any p := by
  rw [Bool.eq_iff_iff, List.any_eq_true, List.any_eq_true]
  constructor
  · rintro ⟨a, ha, hpa⟩; exact ⟨a, h.mem_iff.mp ha, hpa⟩
  · rintro ⟨a, ha, hpa⟩; exact ⟨a, h.mem_iff.mpr ha, hpa⟩

/-- The selection invariant: the selected layer id, when non-null, names a
layer present in the list. -/
def selInvB (s : StoreState) : Bool :=
  match s.rp.selectedLayerId with
  | none => true
  | some sel => s.rp.layers.any (fun l => l.id == sel)

/-- An id-preserving `updateFirst` cannot lose the id `any` finds. -/
theorem any_true_of_updateFirst (q : String) (p : Layer → Bool) (f : Layer → Layer)
    (hf : ∀ l, (f l).id = l.id) (xs : List Layer)
    (h : xs.any (fun l => l.id == q) = true) :
    (updateFirst p f xs).any (fun l => l.id == q) = true := by
  rw [any_id_updateFirst q p f hf xs]
  exact h

/-- An id-preserving `map` cannot lose the id `any` finds. -/
theorem any_true_of_map_id (q : String) (f : Layer → Layer)
    (hf : ∀ l, (f l).id = l.id) (xs : List Layer)
    (h : xs.any (fun l => l.id == q) = true) :
    (xs.map f).any (fun l => l.id == q) = true := by
  rw [any_id_map q f hf xs]
  exact h

/-- A permutation cannot lose what `any` finds. -/
theorem any_true_of_perm {xs ys : List α} (hp : ys.Perm xs) (p : α → Bool)
    (h : xs.any p = true) : ys.any p = true := by
  rw [any_of_perm hp p]
  exact h

/-- Every single dispatched action preserves the selection invariant. -/
theorem selInvB_step (s : StoreState) (a : RPAction) (h : selInvB s = true) :
    selInvB (step s a) = true := by
  cases a with
  | layerAdded kind uuid =>
    by_cases hk : kind = "vector_mask_layer"
    · subst hk
      simp [step, selInvB]
    · simp only [step]
      rw [if_neg hk]
      exact h
  | layerSelected id =>
    rcases hfind : s.rp.layers.find? (fun l => l.id == id) with _ | l
    · simpa only [step, hfind] using h
    · simp only [step, hfind, selInvB]
      exact List.any_eq_true.mpr ⟨l, List.mem_of_find?_eq_some hfind, by simp⟩
  | layerVisibilityToggled id =>
    rcases hs : s.rp.selectedLayerId with _ | sel
    · simp [step, selInvB, hs]
    · simp only [step, selInvB, hs]
      refine any_true_of_updateFirst sel _ _ ?_ _ (by simpa only [selInvB, hs] using h)
      intro l
      rfl
  | layerTranslated id x y =>
    rcases hs : s.rp.selectedLayerId with _ | sel
    · simp [step, selInvB, hs]
    · simp only [step, selInvB, hs]
      refine any_true_of_updateFirst sel _ _ ?_ _ (by simpa only [selInvB, hs] using h)
      intro l
      rfl
  | layerBboxChanged id bbox =>
    rcases hs : s.rp.selectedLayerId with _ | sel
    · simp [step, selInvB, hs]
    · simp only [step, selInvB, hs]
      refine any_true_of_updateFirst sel _ _ ?_ _ (by simpa only [selInvB, hs] using h)
      intro l
      rfl
  | layerReset id =>
    rcases hs : s.rp.selectedLayerId with _ | sel
    · simp [step, selInvB, hs]
    · simp only [step, selInvB, hs]
      refine any_true_of_updateFirst sel _ _ ?_ _ (by simpa only [selInvB, hs] using h)
      intro l
      rfl
  | layerDeleted id =>
    rcases hl : (s.rp.layers.filter (fun l => !(l.id == id))).head? with _ | l
    · simp [step, selInvB, hl]
    · simp only [step, selInvB, hl, Option.map_some']
      exact List.any_eq_true.mpr ⟨l, List.mem_of_mem_head? (by simp [hl]), by simp⟩
  | layerMovedForward id =>
    rcases hs : s.rp.selectedLayerId with _ | sel
    · simp [step, selInvB, hs]
    · simp only [step, selInvB, hs]
      exact any_true_of_perm (perm_moveForward _ _) _
        (by simpa only [selInvB, hs] using h)
  | layerMovedToFront id =>
    rcases hs : s.rp.selectedLayerId with _ | sel
    · simp [step, selInvB, hs]
    · simp only [step, selInvB, hs]
      exact any_true_of_perm (perm_moveToBack _ _) _
        (by simpa only [selInvB, hs] using h)
  | layerMovedBackward id =>
    rcases hs : s.rp.selectedLayerId with _ | sel
    · simp [step, selInvB, hs]
    · simp only [step, selInvB, hs]
      exact any_true_of_perm (perm_moveBackward _ _) _
        (by simpa only [selInvB, hs] using h)
  | layerMovedToBack id =>
    rcases hs : s.rp.selectedLayerId with _ | sel
    · simp [step, selInvB, hs]
    · simp only [step, selInvB, hs]
      exact any_true_of_perm (perm_moveToFront _ _) _
        (by simpa only [selInvB, hs] using h)
  | allLayersDeleted => simp [step, selInvB]
  | maskLayerPositivePromptChanged id prompt =>
    rcases hs : s.rp.selectedLayerId with _ | sel
    · simp [step, selInvB, hs]
    · simp only [step, selInvB, hs]
      refine any_true_of_updateFirst sel _ _ ?_ _ (by simpa only [selInvB, hs] using h)
      intro l
      cases hl : l.textPrompt <;> simp [hl]
  | maskLayerNegativePromptChanged id prompt =>
    rcases hs : s.rp.selectedLayerId with _ | sel
    · simp [step, selInvB, hs]
    · simp only [step, selInvB, hs]
      refine any_true_of_updateFirst sel _ _ ?_ _ (by simpa only [selInvB, hs] using h)
      intro l
      cases hl : l.textPrompt <;> simp [hl]
  | maskLayerPreviewColorChanged id color =>
    rcases hs : s.rp.selectedLayerId with _ | sel
    · simp [step, selInvB, hs]
    · simp only [step, selInvB, hs]
      refine any_true_of_updateFirst sel _ _ ?_ _ (by simpa only [selInvB, hs] using h)
      intro l
      rfl
  | maskLayerLineAdded id p0 p1 p2 p3 tool uuid =>
    rcases hs : s.rp.selectedLayerId with _ | sel
    · simp [step, selInvB, hs]
    · simp only [step, selInvB, hs]
      refine any_true_of_updateFirst sel _ _ ?_ _ (by simpa only [selInvB, hs] using h)
      intro l
      rfl
  | maskLayerPointsAdded id px py =>
    rcases hs : s.rp.selectedLayerId with _ | sel
    · simp [step, selInvB, hs]
    · simp only [step, selInvB, hs]
      refine any_true_of_updateFirst sel _ _ ?_ _ (by simpa only [selInvB, hs] using h)
      intro l
      split <;> rfl
  | maskLayerRectAdded id rect uuid =>
    simp only [step]
    split
    · exact h
    · rcases hs : s.rp.selectedLayerId with _ | sel
      · simp [selInvB, hs]
      · simp only [selInvB, hs]
        refine any_true_of_updateFirst sel _ _ ?_ _ (by simpa only [selInvB, hs] using h)
        intro l
        rfl
  | maskLayerAutoNegativeChanged id an =>
    rcases hs : s.rp.selectedLayerId with _ | sel
    · simp [step, selInvB, hs]
    · simp only [step, selInvB, hs]
      refine any_true_of_updateFirst sel _ _ ?_ _ (by simpa only [selInvB, hs] using h)
      intro l
      rfl
  | brushSizeChanged n => simpa only [step, selInvB] using h
  | globalMaskLayerOpacityChanged q =>
    rcases hs : s.rp.selectedLayerId with _ | sel
    · simp [step, selInvB, hs]
    · simp only [step, selInvB, hs]
      refine any_true_of_map_id sel _ ?_ _ (by simpa only [selInvB, hs] using h)
      intro l
      rfl
  | isEnabledChanged b => simpa only [step, selInvB] using h
  | undo =>
    rcases hs : s.rp.selectedLayerId with _ | sel
    · simp [step, selInvB, hs]
    · simp only [step, selInvB, hs]
      refine any_true_of_map_id sel _ ?_ _ (by simpa only [selInvB, hs] using h)
      intro l
      rfl
  | redo =>
    rcases hs : s.rp.selectedLayerId with _ | sel
    · simp [step, selInvB, hs]
    · simp only [step, selInvB, hs]
      refine any_true_of_map_id sel _ ?_ _ (by simpa only [selInvB, hs] using h)
      intro l
      rfl

/-- Folding any action list preserves the selection invariant. -/
theorem selInvB_foldl : ∀ (acts : List RPAction) (s : StoreState),
    selInvB s = true → selInvB (acts.foldl step s) = true
  | [], _, h => h
  | a :: acts, s, h => selInvB_foldl acts (step s a) (selInvB_step s a h)

/-- Claim C3: after any sequence of dispatched store actions (in particular
any mix of add-layer and delete-layer) starting from the initial state,
`selectedLayerId` is null or the id of a layer present in the list. -/
theorem selection_invariant (acts : List RPAction) :
    selInvB (runActions acts) = true :=
  selInvB_foldl acts initialStoreState rfl

/-- Splicing a layer list whose first blob-less layer is `l` processes the
prefix before `l` normally and stops at `l`'s blob assertion: the graph is
exactly the prefix's graph (no node of `l` inserted, earlier layers kept),
the uploads are exactly the prefix's, and the per-layer assertion message
for `l` is raised. -/
theorem processLayers_append_missing (isSDXL : Bool) (blobs : List String)
    (upload : String → String) (l : Layer) (post : List Layer) :
    ∀ (pre : List Layer) (g : Graph), (∀ x ∈ pre, x.id ∈ blobs) → l.id ∉ blobs →
      processLayers isSDXL blobs upload g (pre ++ l :: post) =
        ((processLayers isSDXL blobs upload g pre).1,
          pre.map (fun x => x.id),
          some ("Blob for layer " ++ l.id ++ " not found"))
  | [], g, _, hl => by
    simp only [List.nil_append, processLayers]
    rw [if_neg hl]
    rfl
  | x :: pre, g, hpre, hl => by
    have hx : x.id ∈ blobs := hpre x (List.mem_cons_self x pre)
    simp only [List.cons_append, processLayers, List.append_eq]
    rw [if_pos hx, if_pos hx,
      processLayers_append_missing isSDXL blobs upload l post pre _
        (fun y hy => hpre y (List.mem_cons_of_mem x hy)) hl]
    rfl

/-- The splicer under the enabled flag, written as the blob-count assertion
followed by setup and the per-layer loop. -/
theorem addRegional_enabled_eq (st : SplicerInput) (graph : Graph) (dn : String)
    (blobs : List String) (upload : String → String) (hEn : st.isEnabled = true) :
    addRegionalPromptsToGraph st graph dn blobs upload =
      if blobs.length ≠ ((filteredLayers st.layers).map (fun l => l.id)).length then
        { graph := graph, uploaded := [], error := some "Mismatch between layer IDs and blobs" }
      else
        let r := processLayers (st.modelBase == some "sdxl") blobs upload
          (spliceSetup graph dn) (filteredLayers st.layers)
        { graph := r.1, uploaded := r.2.1, error := r.2.2 } := by
  simp [addRegionalPromptsToGraph, hEn]

/-- Claim C6: with the feature enabled, a blob-count mismatch makes the
splicer fail its first assertion with the whole graph untouched and nothing
uploaded; and when the counts agree but a filtered layer's blob is missing,
the pass fails at that layer's assertion, with the graph holding exactly the
setup mutations plus the earlier layers' nodes (not rolled back) and no
node of the failing layer, and with exactly the earlier layers uploaded. -/
theorem splicer_blob_assertions (st : SplicerInput) (graph : Graph) (dn : String)
    (blobs : List String) (upload : String → String) (hEn : st.isEnabled = true) :
    (blobs.length ≠ (filteredLayers st.layers).length →
      addRegionalPromptsToGraph st graph dn blobs upload =
        { graph := graph, uploaded := [], error := some "Mismatch between layer IDs and blobs" })
    ∧ (∀ (pre : List Layer) (l : Layer) (post : List Layer),
        filteredLayers st.layers = pre ++ l :: post →
        blobs.length = (filteredLayers st.layers).length →
        (∀ x ∈ pre, x.id ∈ blobs) →
        l.id ∉ blobs →
        addRegionalPromptsToGraph st graph dn blobs upload =
          { graph := (processLayers (st.modelBase == some "sdxl") blobs upload
              (spliceSetup graph dn) pre).1
            uploaded := pre.map (fun x => x.id)
            error := some ("Blob for layer " ++ l.id ++ " not found") }) := by
  constructor
  · intro hlen
    rw [addRegional_enabled_eq st graph dn blobs upload hEn,
      if_pos (by rw [List.length_map]; exact hlen)]
  · intro pre l post hsplit heq hpre hl
    rw [addRegional_enabled_eq st graph dn blobs upload hEn,
      if_neg (by rw [List.length_map]; exact fun hc => hc heq), hsplit,
      processLayers_append_missing (st.modelBase == some "sdxl") blobs upload l post pre
        (spliceSetup graph dn) hpre hl]

/-- Witness for `splicer_blob_assertions`: the one-layer scenario with an
empty blob mapping (count mismatch) and with a wrong-keyed mapping of the
right size (per-layer assertion, graph left at the setup stage). -/
theorem splicer_blob_assertions_witness :
    addRegionalPromptsToGraph { isEnabled := true, layers := [demoLayer], modelBase := none }
        baseGraph "denoise" [] demoUpload
      = { graph := baseGraph, uploaded := []
          error := some "Mismatch between layer IDs and blobs" }
    ∧ addRegionalPromptsToGraph { isEnabled := true, layers := [demoLayer], modelBase := none }
        baseGraph "denoise" ["other"] demoUpload
      = { graph := spliceSetup baseGraph "denoise", uploaded := []
          error := some "Blob for layer layer1 not found" } := by
  constructor
  · exact (splicer_blob_assertions _ baseGraph "denoise" [] demoUpload rfl).1 (by decide)
  · exact (splicer_blob_assertions
        { isEnabled := true, layers := [demoLayer], modelBase := none }
        baseGraph "denoise" ["other"] demoUpload rfl).2
      [] demoLayer [] (by decide) (by decide) (by decide) (by decide)
